import Mathlib

/-!
Shallow embedding of the interactive graph editor core of
`src/app/components/node-editor/node-editor.component.ts`
(CausalBench-Designer).  Machine numbers are modelled as exact
rationals; ids are strings, as in the source.  The untyped `data: any`
configuration payload is external plumbing (spec §1/§6) and is not part
of the modelled core.
-/

namespace NodeEditor

/-- The `type` field of `GraphNode` in the source. -/
inductive NodeType
  | dataset
  | processor
  | model
  | metric
deriving DecidableEq

/-- The `type` field of `NodePort`: `'input' | 'output'`. -/
inductive PortType
  | input
  | output
deriving DecidableEq

/-- The `NodePort` interface from the source. -/
structure NodePort where
  id : String
  name : String
  type : PortType
  x : ℚ
  y : ℚ
deriving DecidableEq

/-- The `GraphNode` interface from the source (the untyped `data : any`
payload is not modelled; it is external to the editor core). -/
structure GraphNode where
  id : String
  type : NodeType
  x : ℚ
  y : ℚ
  width : ℚ
  height : ℚ
  title : String
  inputPorts : List NodePort
  outputPorts : List NodePort
  selected : Bool
deriving DecidableEq

/-- The `GraphEdge` interface from the source. -/
structure GraphEdge where
  id : String
  sourceNodeId : String
  sourcePortId : String
  targetNodeId : String
  targetPortId : String
deriving DecidableEq

/-- The `connectingPort` transient record in the component. -/
structure ConnectingPort where
  nodeId : String
  portId : String
  type : PortType
deriving DecidableEq

/-- The editor-core fields of `NodeEditorComponent` (catalog/detail-panel
fields are external collaborators per spec §6 and are not modelled). -/
structure EditorState where
  nodes : List GraphNode
  edges : List GraphEdge
  canvasOffsetX : ℚ
  canvasOffsetY : ℚ
  canvasScale : ℚ
  selectedNode : Option GraphNode
  connectingPort : Option ConnectingPort
  tempEdgeEnd : Option (ℚ × ℚ)
  showNodeMenu : Bool
  contextMenuCanvasPosX : ℚ
  contextMenuCanvasPosY : ℚ
deriving DecidableEq

/-- Initial component state: `nodes = []`, `edges = []`,
`canvasOffset = {0,0}`, `canvasScale = 1.0`, all transient fields empty. -/
def initialEditorState : EditorState :=
  { nodes := []
    edges := []
    canvasOffsetX := 0
    canvasOffsetY := 0
    canvasScale := 1
    selectedNode := none
    connectingPort := none
    tempEdgeEnd := none
    showNodeMenu := false
    contextMenuCanvasPosX := 0
    contextMenuCanvasPosY := 0 }

/-- Source `getNodeTitle`. -/
def getNodeTitle : NodeType → String
  | .dataset => "Dataset"
  | .processor => "Processor"
  | .model => "Model"
  | .metric => "Metric"

/-- Source `getNodeTypeLabel`. -/
def getNodeTypeLabel : NodeType → String
  | .dataset => "Dataset"
  | .processor => "Processor"
  | .model => "Model"
  | .metric => "Metric"

/-- Source `getInputPorts`: the input-port template per kind. -/
def getInputPorts : NodeType → List NodePort
  | .dataset => []
  | .processor => [{ id := "input-1", name := "Input", type := .input, x := 0, y := 0 }]
  | .model => [{ id := "input-1", name := "Input", type := .input, x := 0, y := 0 }]
  | .metric => [{ id := "input-1", name := "Input", type := .input, x := 0, y := 0 }]

/-- Source `getOutputPorts`: the output-port template per kind. -/
def getOutputPorts : NodeType → List NodePort
  | .dataset => [{ id := "output-1", name := "Output", type := .output, x := 0, y := 0 }]
  | .processor => [{ id := "output-1", name := "Output", type := .output, x := 0, y := 0 }]
  | .model => [{ id := "output-1", name := "Output", type := .output, x := 0, y := 0 }]
  | .metric => []

/-- Source `updatePortPositions`: for every node, input ports
sit at `(node.x, node.y + 20 + index*30)` and output ports at
`(node.x + node.width, node.y + 20 + index*30)`. -/
def updatePortPositions (nodes : List GraphNode) : List GraphNode :=
  nodes.map fun node =>
    { node with
      inputPorts := node.inputPorts.enum.map fun ip =>
        { ip.2 with x := node.x, y := node.y + 20 + (ip.1 : ℚ) * 30 }
      outputPorts := node.outputPorts.enum.map fun ip =>
        { ip.2 with x := node.x + node.width, y := node.y + 20 + (ip.1 : ℚ) * 30 } }

/-- The duplicate check inside `createEdge` (`this.edges.some(...)`). -/
def edgeExists (edges : List GraphEdge) (sourceNodeId sourcePortId targetNodeId targetPortId : String) : Bool :=
  edges.any fun edge =>
    edge.sourceNodeId == sourceNodeId &&
    edge.sourcePortId == sourcePortId &&
    edge.targetNodeId == targetNodeId &&
    edge.targetPortId == targetPortId

/-- Source `createEdge`.  Here `now` is the `Date.now()` value used
to mint the edge id. -/
def createEdge (sourceNodeId sourcePortId targetNodeId targetPortId : String) (now : Nat)
    (s : EditorState) : EditorState :=
  if edgeExists s.edges sourceNodeId sourcePortId targetNodeId targetPortId then s
  else
    { s with edges := s.edges ++
        [{ id := "edge-" ++ toString now
           sourceNodeId := sourceNodeId
           sourcePortId := sourcePortId
           targetNodeId := targetNodeId
           targetPortId := targetPortId }] }

/-- Source `createNode`.  Here `now` is the `Date.now()` value used
to mint the node id; `rectWidth`/`rectHeight` stand for the container's
bounding rect in the branch where no position is supplied. -/
def createNode (type : NodeType) (xOpt yOpt : Option ℚ) (rectWidth rectHeight : ℚ) (now : Nat)
    (s : EditorState) : EditorState :=
  let nodeX : ℚ :=
    match xOpt, yOpt with
    | some x, some _ => x
    | _, _ =>
      if s.showNodeMenu then s.contextMenuCanvasPosX - 100
      else (rectWidth / 2 - s.canvasOffsetX) / s.canvasScale - 100
  let nodeY : ℚ :=
    match xOpt, yOpt with
    | some _, some y => y
    | _, _ =>
      if s.showNodeMenu then s.contextMenuCanvasPosY - 50
      else (rectHeight / 2 - s.canvasOffsetY) / s.canvasScale - 50
  let node : GraphNode :=
    { id := "node-" ++ toString now
      type := type
      x := nodeX
      y := nodeY
      width := 200
      height := 140
      title := getNodeTitle type
      inputPorts := getInputPorts type
      outputPorts := getOutputPorts type
      selected := false }
  let nodes' := updatePortPositions (s.nodes ++ [node])
  { s with
    nodes := nodes'
    showNodeMenu := false
    selectedNode := nodes'.getLast? }

/-- Source `deleteNode`: filters out every edge touching the
node's id, filters the node out of the node list, and unconditionally
clears `selectedNode`. -/
def deleteNode (node : GraphNode) (s : EditorState) : EditorState :=
  { s with
    edges := s.edges.filter fun edge =>
      edge.sourceNodeId != node.id && edge.targetNodeId != node.id
    nodes := s.nodes.filter fun n => n.id != node.id
    selectedNode := none }

/-- Source `deleteEdge`. -/
def deleteEdge (edge : GraphEdge) (s : EditorState) : EditorState :=
  { s with edges := s.edges.filter fun e => e.id != edge.id }

/-- Source `isValidConnection`: the directed kind-compatibility
table. -/
def isValidConnection (sourceNode targetNode : GraphNode) : Bool :=
  let sourceType := sourceNode.type
  let targetType := targetNode.type
  if sourceType = NodeType.dataset then
    targetType == NodeType.processor || targetType == NodeType.model
  else if sourceType = NodeType.model then
    targetType == NodeType.processor || targetType == NodeType.metric
  else if sourceType = NodeType.processor then
    targetType == NodeType.processor || targetType == NodeType.model ||
      targetType == NodeType.metric
  else
    false

/-- Source `onCanvasWheel`, acting on the scale:
`delta = deltaY > 0 ? 0.9 : 1.1`, then
`scale := Math.max(0.1, Math.min(3.0, scale * delta))`. -/
def onCanvasWheel (deltaY : ℚ) (canvasScale : ℚ) : ℚ :=
  let delta : ℚ := if 0 < deltaY then 0.9 else 1.1
  max 0.1 (min 3.0 (canvasScale * delta))

/-- Canvas→screen conversion as in `getPortPosition`/`getEdgePath`:
`p * canvasScale + canvasOffset`. -/
def canvasToScreenX (canvasScale canvasOffsetX : ℚ) (p : ℚ) : ℚ :=
  p * canvasScale + canvasOffsetX

/-- Screen→canvas conversion as in `onMouseMove`/`onCanvasContextMenu`:
`(client - rect.left - canvasOffset) / canvasScale`. -/
def screenToCanvasX (canvasScale canvasOffsetX rectLeft clientX : ℚ) : ℚ :=
  (clientX - rectLeft - canvasOffsetX) / canvasScale

/-- Canvas→screen on a 2-d point, componentwise as in the source. -/
def canvasToScreenPt (canvasScale canvasOffsetX canvasOffsetY : ℚ) (p : ℚ × ℚ) : ℚ × ℚ :=
  (canvasToScreenX canvasScale canvasOffsetX p.1,
   canvasToScreenX canvasScale canvasOffsetY p.2)

/-- Screen→canvas on a 2-d point, componentwise as in the source. -/
def screenToCanvasPt (canvasScale canvasOffsetX canvasOffsetY rectLeft rectTop : ℚ)
    (q : ℚ × ℚ) : ℚ × ℚ :=
  (screenToCanvasX canvasScale canvasOffsetX rectLeft q.1,
   screenToCanvasX canvasScale canvasOffsetY rectTop q.2)

/-- Result of `onPortMouseDown`: the new state plus the optional
`alert(...)` message.  `crash` models the `sourceNode!.type` dereference
in the rejection branch when the source node no longer exists (a
TypeError in the source). -/
inductive PortDownResult
  | ok (s : EditorState) (alertMsg : Option String)
  | crash
deriving DecidableEq

/-- The alert component of a `PortDownResult`. -/
def portDownAlert : PortDownResult → Option String
  | .ok _ a => a
  | .crash => none

/-- The state component of a `PortDownResult`. -/
def portDownState : PortDownResult → Option EditorState
  | .ok s _ => some s
  | .crash => none

/-- Source `onPortMouseDown`.  With a connection in progress it
commits/rejects and always clears the transient state; otherwise it
records the clicked port as the connection source. -/
def onPortMouseDown (node : GraphNode) (port : NodePort) (now : Nat)
    (s : EditorState) : PortDownResult :=
  match s.connectingPort with
  | some cp =>
    if cp.type ≠ port.type ∧ cp.nodeId ≠ node.id then
      match s.nodes.find? (fun n => n.id == cp.nodeId) with
      | some sourceNode =>
        if isValidConnection sourceNode node then
          let s' :=
            if port.type = PortType.input then
              createEdge cp.nodeId cp.portId node.id port.id now s
            else
              createEdge node.id port.id cp.nodeId cp.portId now s
          .ok { s' with connectingPort := none, tempEdgeEnd := none } none
        else
          .ok { s with connectingPort := none, tempEdgeEnd := none }
            (some ("Invalid connection: " ++ getNodeTypeLabel sourceNode.type ++
                   " cannot connect to " ++ getNodeTypeLabel node.type))
      | none => .crash
    else
      .ok { s with connectingPort := none, tempEdgeEnd := none } none
  | none =>
    .ok { s with
          connectingPort := some { nodeId := node.id, portId := port.id, type := port.type }
          tempEdgeEnd := some (port.x, port.y) } none

/-- A port with this id among the node's input and output ports
(claim C1's "port owned by that node"). -/
def nodeOwnsPort (n : GraphNode) (portId : String) : Bool :=
  (n.inputPorts ++ n.outputPorts).any fun p => p.id == portId

/-- The (nodeId, portId) reference resolves to a currently-present node
owning such a port. -/
def endpointResolves (nodes : List GraphNode) (nodeId portId : String) : Bool :=
  nodes.any fun n => n.id == nodeId && nodeOwnsPort n portId

/-- All four references of an edge resolve (claim C1). -/
def edgeEndpointsResolve (nodes : List GraphNode) (e : GraphEdge) : Bool :=
  endpointResolves nodes e.sourceNodeId e.sourcePortId &&
  endpointResolves nodes e.targetNodeId e.targetPortId

/-- Every edge of the state resolves (claim C1's invariant). -/
def edgesResolve (s : EditorState) : Bool :=
  s.edges.all (edgeEndpointsResolve s.nodes)

/-- The graph operations quantified over in claims C1 and C9. -/
inductive GraphOp
  | createNodeOp (type : NodeType) (x y : ℚ) (now : Nat)
  | createEdgeOp (sourceNodeId sourcePortId targetNodeId targetPortId : String) (now : Nat)
  | deleteNodeOp (node : GraphNode)
  | deleteEdgeOp (edge : GraphEdge)

/-- One graph operation, dispatched to the source functions. -/
def step (s : EditorState) : GraphOp → EditorState
  | .createNodeOp t x y now => createNode t (some x) (some y) 0 0 now s
  | .createEdgeOp sn sp tn tp now => createEdge sn sp tn tp now s
  | .deleteNodeOp n => deleteNode n s
  | .deleteEdgeOp e => deleteEdge e s

/-- A sequence of graph operations. -/
def run (s : EditorState) (ops : List GraphOp) : EditorState := ops.foldl step s

/-- Side condition of the amended claim C1: a `createEdge` operation's
endpoints resolve at call time (which is what the UI connect path
guarantees); the other operations are unrestricted. -/
def opEndpointsResolve (s : EditorState) : GraphOp → Bool
  | .createEdgeOp sn sp tn tp _ =>
      endpointResolves s.nodes sn sp && endpointResolves s.nodes tn tp
  | _ => true

/-- The spec's compatibility table (§4.3), written from the spec's words
for the refinement statement of claim C4. -/
def specLegalTargets : NodeType → NodeType → Bool
  | .dataset, .processor => true
  | .dataset, .model => true
  | .model, .processor => true
  | .model, .metric => true
  | .processor, .processor => true
  | .processor, .model => true
  | .processor, .metric => true
  | _, _ => false

/-- The spec's clamp (§4.2), written from the spec's words for claim C8. -/
def specClamp (x : ℚ) : ℚ := max 0.1 (min 3.0 x)

/-- The spec's zoom factor (§4.2): 0.9 for zoom-out (`deltaY > 0`),
1.1 for zoom-in. -/
def specZoomFactor (deltaY : ℚ) : ℚ := if 0 < deltaY then 0.9 else 1.1

/-- Folding a sequence of wheel events from the initial scale 1.0. -/
def wheelRun (deltas : List ℚ) : ℚ :=
  deltas.foldl (fun s d => onCanvasWheel d s) 1

/-- Each `onCanvasWheel` result lies in `[0.1, 3.0]`. -/
theorem onCanvasWheel_mem_range (d s : ℚ) :
    (0.1 : ℚ) ≤ onCanvasWheel d s ∧ onCanvasWheel d s ≤ 3.0 := by
  unfold onCanvasWheel
  refine ⟨le_max_left _ _, max_le (by norm_num) (min_le_left _ _)⟩

/-- Auxiliary fold bound for claim C8. -/
theorem wheelFold_mem_range (deltas : List ℚ) :
    ∀ s : ℚ, (0.1 : ℚ) ≤ s → s ≤ 3.0 →
      (0.1 : ℚ) ≤ deltas.foldl (fun s d => onCanvasWheel d s) s ∧
      deltas.foldl (fun s d => onCanvasWheel d s) s ≤ 3.0 := by
  induction deltas with
  | nil => intro s h1 h2; exact ⟨h1, h2⟩
  | cons d rest ih =>
    intro s _ _
    simpa using ih (onCanvasWheel d s) (onCanvasWheel_mem_range d s).1
      (onCanvasWheel_mem_range d s).2

/-- C4: the connection validity function over node kinds returns exactly
the compatibility table: Dataset→{Processor,Model}, Model→{Processor,Metric},
Processor→{Processor,Model,Metric}, Metric→∅; in particular
isValid(Dataset,Metric)=false, isValid(Dataset,Model)=true,
isValid(Model,Metric)=true, isValid(Processor,Dataset)=false. -/
theorem isValidConnection_matches_table :
    (∀ sourceNode targetNode : GraphNode,
       isValidConnection sourceNode targetNode =
         specLegalTargets sourceNode.type targetNode.type) ∧
    specLegalTargets .dataset .metric = false ∧
    specLegalTargets .dataset .model = true ∧
    specLegalTargets .model .metric = true ∧
    specLegalTargets .processor .dataset = false ∧
    (∀ t : NodeType, specLegalTargets .metric t = false) := by
  refine ⟨?_, rfl, rfl, rfl, rfl, ?_⟩
  · intro sourceNode targetNode
    cases hs : sourceNode.type <;> cases ht : targetNode.type <;>
      simp [isValidConnection, specLegalTargets, hs, ht]
  · intro t; cases t <;> rfl

/-- C8: each wheel event sets the scale to
`clamp(scale * factor, 0.1, 3.0)` with factor 0.9 for zoom-out
(`deltaY > 0`) and 1.1 for zoom-in, and any sequence of wheel events
starting from scale 1.0 keeps the scale within `[0.1, 3.0]`. -/
theorem onCanvasWheel_clamped :
    (∀ d s : ℚ, onCanvasWheel d s = specClamp (s * specZoomFactor d)) ∧
    ∀ deltas : List ℚ, (0.1 : ℚ) ≤ wheelRun deltas ∧ wheelRun deltas ≤ 3.0 := by
  constructor
  · intro d s; rfl
  · intro deltas
    exact wheelFold_mem_range deltas 1 (by norm_num) (by norm_num)

/-- C10: `deleteNode` unconditionally clears the node selection, even
when the previously selected node is a different, still-existing node. -/
theorem deleteNode_clears_selectedNode (s : EditorState) (n : GraphNode) :
    (deleteNode n s).selectedNode = none := rfl

/-- C7: for a scale in `[0.1, 3.0]` and any offsets, converting a canvas
point to screen space (`p * scale + offset`, then adding the container
rect origin to get client coordinates) and back
(`(client - rect - offset) / scale`) returns the point exactly. -/
theorem screenToCanvas_roundTrip (scale ox oy rl rt : ℚ) (p : ℚ × ℚ)
    (h1 : (0.1 : ℚ) ≤ scale) (h2 : scale ≤ 3.0) :
    screenToCanvasPt scale ox oy rl rt
      ((canvasToScreenPt scale ox oy p).1 + rl,
       (canvasToScreenPt scale ox oy p).2 + rt) = p := by
  have hpos : (0 : ℚ) < scale := lt_of_lt_of_le (by norm_num) h1
  have hne : scale ≠ 0 := ne_of_gt hpos
  unfold screenToCanvasPt canvasToScreenPt screenToCanvasX canvasToScreenX
  refine Prod.ext ?_ ?_ <;> · field_simp

/-- Witness for C7 at scale 1, offsets (2,3), rect origin (4,5), p = (7,9). -/
theorem screenToCanvas_roundTrip_witness :
    (0.1 : ℚ) ≤ 1 ∧ (1 : ℚ) ≤ 3.0 ∧
    screenToCanvasPt 1 2 3 4 5
      ((canvasToScreenPt 1 2 3 (7, 9)).1 + 4,
       (canvasToScreenPt 1 2 3 (7, 9)).2 + 5) = (7, 9) :=
  ⟨by norm_num, by norm_num,
   screenToCanvas_roundTrip 1 2 3 4 5 (7, 9) (by norm_num) (by norm_num)⟩

/-- Concrete dataset node used by witnesses. -/
def wNode1 : GraphNode :=
  { id := "n1", type := .dataset, x := 0, y := 0, width := 200, height := 140,
    title := "Dataset", inputPorts := getInputPorts .dataset,
    outputPorts := getOutputPorts .dataset, selected := false }

/-- Concrete model node used by witnesses. -/
def wNode2 : GraphNode :=
  { id := "n2", type := .model, x := 300, y := 0, width := 200, height := 140,
    title := "Model", inputPorts := getInputPorts .model,
    outputPorts := getOutputPorts .model, selected := false }

/-- Concrete edge n1 → n2 used by witnesses. -/
def wEdge12 : GraphEdge :=
  { id := "e1", sourceNodeId := "n1", sourcePortId := "output-1",
    targetNodeId := "n2", targetPortId := "input-1" }

/-- Concrete self-referencing edge on n2 used by witnesses. -/
def wEdge22 : GraphEdge :=
  { id := "e2", sourceNodeId := "n2", sourcePortId := "output-1",
    targetNodeId := "n2", targetPortId := "input-1" }

/-- Concrete two-node state used by witnesses. -/
def wState : EditorState :=
  { initialEditorState with nodes := [wNode1, wNode2] }

/-- Concrete two-node, two-edge state used by the C3 witness. -/
def wDelState : EditorState :=
  { initialEditorState with nodes := [wNode1, wNode2], edges := [wEdge12, wEdge22] }

/-- C2 counterexample: on the empty initial state neither endpoint of the
("a","p") → ("b","q") tuple resolves, yet `createEdge` still mutates the
graph by appending an edge — the claimed unresolved-endpoint rejection
does not exist in the code. -/
theorem createEdge_unresolved_endpoints_mutate :
    endpointResolves initialEditorState.nodes "a" "p" = false ∧
    (createEdge "a" "p" "b" "q" 0 initialEditorState).edges ≠
      initialEditorState.edges := by
  refine ⟨rfl, ?_⟩
  decide

/-- C2 (amended): `createEdge` leaves the state unchanged exactly when an
edge with the identical endpoint tuple already exists; in every other
case — including unresolved endpoints, which it does not check — it
appends exactly one new edge with those endpoints and mutates nothing
else. -/
theorem createEdge_spec (s : EditorState) (sn sp tn tp : String) (now : Nat) :
    (createEdge sn sp tn tp now s = s ↔ edgeExists s.edges sn sp tn tp = true) ∧
    (edgeExists s.edges sn sp tn tp = false →
      createEdge sn sp tn tp now s =
        { s with edges := s.edges ++
            [{ id := "edge-" ++ toString now, sourceNodeId := sn, sourcePortId := sp,
               targetNodeId := tn, targetPortId := tp }] }) := by
  constructor
  · constructor
    · intro heq
      by_contra h
      have hf : edgeExists s.edges sn sp tn tp = false := by
        cases hh : edgeExists s.edges sn sp tn tp
        · rfl
        · exact absurd hh h
      have h2 := congrArg (fun st => st.edges.length) heq
      simp [createEdge, hf] at h2
    · intro h
      simp [createEdge, h]
  · intro hf
    simp [createEdge, hf]

/-- Witness for C2 at concrete inputs: the tuple of `wEdge12` is already
present in `wDelState`, so re-creating it is a no-op; a fresh tuple on
the same state is appended. -/
theorem createEdge_spec_witness :
    (createEdge "n1" "output-1" "n2" "input-1" 11 wDelState = wDelState) ∧
    (edgeExists wDelState.edges "n2" "output-1" "n2" "input-2" = false ∧
     createEdge "n2" "output-1" "n2" "input-2" 11 wDelState =
       { wDelState with edges := wDelState.edges ++
           [{ id := "edge-11", sourceNodeId := "n2", sourcePortId := "output-1",
              targetNodeId := "n2", targetPortId := "input-2" }] }) :=
  ⟨(createEdge_spec wDelState "n1" "output-1" "n2" "input-1" 11).1.2 rfl,
   rfl,
   (createEdge_spec wDelState "n2" "output-1" "n2" "input-2" 11).2 rfl⟩

/-- C3: `deleteNode N` removes `N` from the node list, removes exactly the
edges whose source or target node id equals `N`'s id, and leaves every
other node unchanged (under the data model's unique-node-id invariant,
spec §3). -/
theorem deleteNode_exact (s : EditorState) (N : GraphNode)
    (hmem : N ∈ s.nodes)
    (hids : ∀ M ∈ s.nodes, M ≠ N → M.id ≠ N.id) :
    N ∉ (deleteNode N s).nodes ∧
    (∀ M : GraphNode, M ∈ (deleteNode N s).nodes ↔ M ∈ s.nodes ∧ M ≠ N) ∧
    ((deleteNode N s).nodes.Sublist s.nodes ∧
     (deleteNode N s).edges.Sublist s.edges) ∧
    (∀ e : GraphEdge, e ∈ (deleteNode N s).edges ↔
       e ∈ s.edges ∧ e.sourceNodeId ≠ N.id ∧ e.targetNodeId ≠ N.id) := by
  refine ⟨?_, ?_, ⟨List.filter_sublist _, List.filter_sublist _⟩, ?_⟩
  · intro h
    have h' : N ∈ s.nodes.filter (fun n => n.id != N.id) := h
    simp only [List.mem_filter, bne_iff_ne, ne_eq] at h'
    exact h'.2 trivial
  · intro M
    constructor
    · intro h
      have h' : M ∈ s.nodes.filter (fun n => n.id != N.id) := h
      simp only [List.mem_filter, bne_iff_ne, ne_eq] at h'
      exact ⟨h'.1, fun hMN => h'.2 (by rw [hMN])⟩
    · intro ⟨h1, h2⟩
      show M ∈ s.nodes.filter (fun n => n.id != N.id)
      simp only [List.mem_filter, bne_iff_ne, ne_eq]
      exact ⟨h1, hids M h1 h2⟩
  · intro e
    constructor
    · intro h
      have h' : e ∈ s.edges.filter
          (fun edge => edge.sourceNodeId != N.id && edge.targetNodeId != N.id) := h
      simp only [List.mem_filter, Bool.and_eq_true, bne_iff_ne, ne_eq] at h'
      exact ⟨h'.1, h'.2⟩
    · intro ⟨h1, h2, h3⟩
      show e ∈ s.edges.filter
          (fun edge => edge.sourceNodeId != N.id && edge.targetNodeId != N.id)
      simp only [List.mem_filter, Bool.and_eq_true, bne_iff_ne, ne_eq]
      exact ⟨h1, h2, h3⟩

/-- Witness for C3: deleting `wNode1` from the concrete two-node
two-edge state removes `wNode1` and exactly the edge touching it. -/
theorem deleteNode_exact_witness :
    (wNode1 ∈ wDelState.nodes ∧
     ∀ M ∈ wDelState.nodes, M ≠ wNode1 → M.id ≠ wNode1.id) ∧
    (wNode1 ∉ (deleteNode wNode1 wDelState).nodes ∧
     (∀ M : GraphNode, M ∈ (deleteNode wNode1 wDelState).nodes ↔
        M ∈ wDelState.nodes ∧ M ≠ wNode1) ∧
     ((deleteNode wNode1 wDelState).nodes.Sublist wDelState.nodes ∧
      (deleteNode wNode1 wDelState).edges.Sublist wDelState.edges) ∧
     (∀ e : GraphEdge, e ∈ (deleteNode wNode1 wDelState).edges ↔
        e ∈ wDelState.edges ∧ e.sourceNodeId ≠ wNode1.id ∧
        e.targetNodeId ≠ wNode1.id)) :=
  ⟨⟨by decide, by decide⟩,
   deleteNode_exact wDelState wNode1 (by decide) (by decide)⟩

/-- The endpoint (nodeId, portId) a successful commit uses as the edge
source: the side whose port direction is `output` (when the clicked port
is an input, that is the recorded connecting side). -/
def commitSource (cp : ConnectingPort) (node : GraphNode) (port : NodePort) : String × String :=
  if port.type = PortType.output then (node.id, port.id) else (cp.nodeId, cp.portId)

/-- The endpoint (nodeId, portId) a successful commit uses as the edge
target: the side whose port direction is `input`. -/
def commitTarget (cp : ConnectingPort) (node : GraphNode) (port : NodePort) : String × String :=
  if port.type = PortType.output then (cp.nodeId, cp.portId) else (node.id, port.id)

/-- C5 (amended): with a connection in progress, an attempt that passes
the direction and distinct-node checks but violates the
kind-compatibility table (its source node resolving) is rejected with a
message naming both node kinds, and the node and edge lists are left
unchanged; an attempt violating the direction or self-loop rule is
dropped silently — no message — also leaving the lists unchanged. -/
theorem onPortMouseDown_rejections (s : EditorState) (cp : ConnectingPort)
    (node : GraphNode) (port : NodePort) (now : Nat)
    (hcp : s.connectingPort = some cp) :
    (∀ sourceNode : GraphNode,
       cp.type ≠ port.type → cp.nodeId ≠ node.id →
       s.nodes.find? (fun n => n.id == cp.nodeId) = some sourceNode →
       isValidConnection sourceNode node = false →
       onPortMouseDown node port now s =
         .ok { s with connectingPort := none, tempEdgeEnd := none }
           (some ("Invalid connection: " ++ getNodeTypeLabel sourceNode.type ++
                  " cannot connect to " ++ getNodeTypeLabel node.type))) ∧
    (cp.type = port.type ∨ cp.nodeId = node.id →
       onPortMouseDown node port now s =
         .ok { s with connectingPort := none, tempEdgeEnd := none } none) := by
  constructor
  · intro sourceNode htype hnode hfind hvalid
    simp [onPortMouseDown, hcp, htype, hnode, hfind, hvalid]
  · intro hor
    rcases hor with h | h <;> simp [onPortMouseDown, hcp, h]

/-- Concrete metric node used by the C5 witness. -/
def wMetricNode : GraphNode :=
  { id := "n3", type := .metric, x := 600, y := 0, width := 200, height := 140,
    title := "Metric", inputPorts := getInputPorts .metric,
    outputPorts := getOutputPorts .metric, selected := false }

/-- Concrete input port (the metric node's template input). -/
def wInPort : NodePort :=
  { id := "input-1", name := "Input", type := .input, x := 0, y := 0 }

/-- Connecting record for a drag started on `wNode1`'s output port. -/
def wConnOut : ConnectingPort :=
  { nodeId := "n1", portId := "output-1", type := .output }

/-- State with dataset, model and metric nodes and a connect in progress
from the dataset's output port. -/
def wConnState : EditorState :=
  { initialEditorState with
    nodes := [wNode1, wNode2, wMetricNode]
    connectingPort := some wConnOut }

/-- Witness for C5: the dataset → metric attempt violates the table and
is rejected with the message naming Dataset and Metric. -/
theorem onPortMouseDown_rejections_witness :
    wConnState.connectingPort = some wConnOut ∧
    isValidConnection wNode1 wMetricNode = false ∧
    onPortMouseDown wMetricNode wInPort 3 wConnState =
      .ok { wConnState with connectingPort := none, tempEdgeEnd := none }
        (some ("Invalid connection: " ++ getNodeTypeLabel wNode1.type ++
               " cannot connect to " ++ getNodeTypeLabel wMetricNode.type)) :=
  ⟨rfl, rfl,
   (onPortMouseDown_rejections wConnState wConnOut wMetricNode wInPort 3 rfl).1
     wNode1 (by decide) (by decide) rfl rfl⟩

/-- Concrete processor node used by the C5 counterexample. -/
def wProcNode : GraphNode :=
  { id := "p1", type := .processor, x := 0, y := 0, width := 200, height := 140,
    title := "Processor", inputPorts := getInputPorts .processor,
    outputPorts := getOutputPorts .processor, selected := false }

/-- State with one processor node and a connect in progress from its own
output port. -/
def wSelfState : EditorState :=
  { initialEditorState with
    nodes := [wProcNode]
    connectingPort := some { nodeId := "p1", portId := "output-1", type := .output } }

/-- C5 counterexample: completing the connect on the *same* node's input
port violates the self-loop rule, yet the attempt produces no rejection
message at all — the alert is `none` — contrary to the claim that every
violation yields a message naming both node kinds (the model is indeed
left unchanged). -/
theorem selfLoop_rejected_without_message :
    onPortMouseDown wProcNode wInPort 0 wSelfState =
      .ok { wSelfState with connectingPort := none, tempEdgeEnd := none } none := by
  decide

/-- C6: when a two-phase connect commits successfully (directions differ,
nodes differ, the source node resolves, the validator accepts),
`createEdge` is invoked with the output-side (node, port) as source and
the input-side (node, port) as target, regardless of which side was
clicked first; the recorded side always has the direction opposite to
the clicked port. -/
theorem onPortMouseDown_commit_orientation (s : EditorState) (cp : ConnectingPort)
    (node : GraphNode) (port : NodePort) (sourceNode : GraphNode) (now : Nat)
    (hcp : s.connectingPort = some cp)
    (htype : cp.type ≠ port.type)
    (hnode : cp.nodeId ≠ node.id)
    (hfind : s.nodes.find? (fun n => n.id == cp.nodeId) = some sourceNode)
    (hvalid : isValidConnection sourceNode node = true) :
    onPortMouseDown node port now s =
      .ok { createEdge (commitSource cp node port).1 (commitSource cp node port).2
              (commitTarget cp node port).1 (commitTarget cp node port).2 now s with
            connectingPort := none, tempEdgeEnd := none } none ∧
    cp.type = (if port.type = PortType.output then PortType.input else PortType.output) := by
  constructor
  · cases hpt : port.type
    · have hct : cp.type = PortType.output := by
        cases hc : cp.type
        · exact absurd (hc.trans hpt.symm) htype
        · rfl
      simp [onPortMouseDown, hcp, hnode, hfind, hvalid, hpt, hct,
            commitSource, commitTarget]
    · have hct : cp.type = PortType.input := by
        cases hc : cp.type
        · rfl
        · exact absurd (hc.trans hpt.symm) htype
      simp [onPortMouseDown, hcp, hnode, hfind, hvalid, hpt, hct,
            commitSource, commitTarget]
  · cases hpt : port.type <;> cases hct : cp.type <;>
      first
        | rfl
        | (exfalso; exact htype (by rw [hpt, hct]))

/-- State with dataset and model nodes and a connect in progress from
the dataset's output port (C6 witness fixture). -/
def wCommitState : EditorState :=
  { initialEditorState with
    nodes := [wNode1, wNode2]
    connectingPort := some wConnOut }

/-- Witness for C6: with the connect started on the dataset's output
port, clicking the model's input port commits with the dataset side as
source and the model side as target. -/
theorem onPortMouseDown_commit_orientation_witness :
    (onPortMouseDown wNode2 wInPort 9 wCommitState =
      .ok { createEdge (commitSource wConnOut wNode2 wInPort).1
              (commitSource wConnOut wNode2 wInPort).2
              (commitTarget wConnOut wNode2 wInPort).1
              (commitTarget wConnOut wNode2 wInPort).2 9 wCommitState with
            connectingPort := none, tempEdgeEnd := none } none ∧
     wConnOut.type =
       (if wInPort.type = PortType.output then PortType.input else PortType.output)) :=
  onPortMouseDown_commit_orientation wCommitState
    wConnOut wNode2 wInPort wNode1 9 rfl (by decide) (by decide) rfl rfl

/-- C1 counterexample: the single-operation sequence
`createEdge("a","p","b","q")` from the initial state leaves an edge none
of whose references resolve — `createEdge` performs no endpoint check,
so the invariant fails for raw operation sequences. -/
theorem dangling_edge_counterexample :
    edgesResolve (run initialEditorState [GraphOp.createEdgeOp "a" "p" "b" "q" 0]) = false :=
  rfl

/-- Any over a mapped list, when the predicate agrees through the map. -/
theorem any_map_congr {α β : Type} (l : List α) (f : α → β) (p : β → Bool) (q : α → Bool)
    (h : ∀ a, p (f a) = q a) : (l.map f).any p = l.any q := by
  induction l with
  | nil => rfl
  | cons a t ih => simp only [List.map_cons, List.any_cons, h, ih]

/-- Any over an `enumFrom`-mapped list only looking at the element. -/
theorem enumFrom_any_snd {α : Type} (q : (ℕ × α) → Bool) (p : α → Bool)
    (h : ∀ i a, q (i, a) = p a) :
    ∀ (l : List α) (k : ℕ), ((List.enumFrom k l).any q) = l.any p := by
  intro l
  induction l with
  | nil => intro k; rfl
  | cons a t ih =>
    intro k
    simp only [List.enumFrom, List.any_cons, h, ih]

/-- Repositioning a node's ports does not change which port ids it owns. -/
theorem nodeOwnsPort_portReposition (node : GraphNode) (pid : String) (a b c d : ℚ) :
    nodeOwnsPort
      { node with
        inputPorts := node.inputPorts.enum.map fun ip =>
          { ip.2 with x := a, y := b + (ip.1 : ℚ) * 30 }
        outputPorts := node.outputPorts.enum.map fun ip =>
          { ip.2 with x := c, y := d + (ip.1 : ℚ) * 30 } } pid
      = nodeOwnsPort node pid := by
  unfold nodeOwnsPort
  simp only [List.any_append, List.enum]
  rw [any_map_congr _ _ _ (fun ip => ip.2.id == pid) (fun _ => rfl),
      any_map_congr _ _ _ (fun ip => ip.2.id == pid) (fun _ => rfl),
      enumFrom_any_snd _ (fun p => p.id == pid) (fun _ _ => rfl),
      enumFrom_any_snd _ (fun p => p.id == pid) (fun _ _ => rfl)]

/-- Repositioning via `updatePortPositions` does not change endpoint resolution. -/
theorem endpointResolves_updatePortPositions (ns : List GraphNode) (nid pid : String) :
    endpointResolves (updatePortPositions ns) nid pid = endpointResolves ns nid pid := by
  unfold endpointResolves updatePortPositions
  refine any_map_congr _ _ _ _ ?_
  intro n
  rw [nodeOwnsPort_portReposition]

/-- Endpoint resolution over a concatenation of node lists. -/
theorem endpointResolves_append (ns ms : List GraphNode) (nid pid : String) :
    endpointResolves (ns ++ ms) nid pid =
      (endpointResolves ns nid pid || endpointResolves ms nid pid) := by
  simp [endpointResolves, List.any_append]

/-- Propositional view of endpoint resolution. -/
theorem endpointResolves_iff (ns : List GraphNode) (nid pid : String) :
    endpointResolves ns nid pid = true ↔
      ∃ n, n ∈ ns ∧ n.id = nid ∧ nodeOwnsPort n pid = true := by
  simp [endpointResolves, List.any_eq_true, Bool.and_eq_true, beq_iff_eq]

/-- Removing nodes with a different id keeps an endpoint resolved. -/
theorem endpointResolves_filter_ne (ns : List GraphNode) (delId nid pid : String)
    (hne : nid ≠ delId) (h : endpointResolves ns nid pid = true) :
    endpointResolves (ns.filter fun n => n.id != delId) nid pid = true := by
  rw [endpointResolves_iff] at h ⊢
  obtain ⟨n, hn, hid, hown⟩ := h
  exact ⟨n, List.mem_filter.2 ⟨hn, by simp [hid, hne]⟩, hid, hown⟩

/-- Edge resolution is preserved under appending nodes. -/
theorem edgeEndpointsResolve_append (ns ms : List GraphNode) (e : GraphEdge)
    (h : edgeEndpointsResolve ns e = true) :
    edgeEndpointsResolve (ns ++ ms) e = true := by
  rw [edgeEndpointsResolve, Bool.and_eq_true] at h ⊢
  rw [endpointResolves_append, endpointResolves_append, h.1, h.2]
  exact ⟨rfl, rfl⟩

/-- Edge resolution is unchanged by `updatePortPositions`. -/
theorem edgeEndpointsResolve_updatePortPositions (ns : List GraphNode) (e : GraphEdge) :
    edgeEndpointsResolve (updatePortPositions ns) e = edgeEndpointsResolve ns e := by
  rw [edgeEndpointsResolve, edgeEndpointsResolve,
      endpointResolves_updatePortPositions, endpointResolves_updatePortPositions]

/-- The `.edges` field is untouched by `createNode`. -/
theorem createNode_edges (t : NodeType) (xo yo : Option ℚ) (rw rh : ℚ) (now : Nat)
    (s : EditorState) : (createNode t xo yo rw rh now s).edges = s.edges := rfl

/-- The `.nodes` field after `createNode`: the old list plus the new node,
repositioned. -/
theorem createNode_nodes (t : NodeType) (xo yo : Option ℚ) (rw rh : ℚ) (now : Nat)
    (s : EditorState) :
    ∃ node : GraphNode,
      (createNode t xo yo rw rh now s).nodes = updatePortPositions (s.nodes ++ [node]) :=
  ⟨_, rfl⟩

/-- C1 (amended): starting from the empty initial state, the invariant
"every edge's four endpoint references resolve to a live node and a port
owned by it" holds after each operation of any sequence of createNode /
createEdge / deleteNode / deleteEdge operations, provided each
`createEdge` operation's endpoints resolve at call time (the guarantee
the UI connect path provides; the raw `createEdge` itself performs no
such check). -/
theorem graphOps_preserve_edge_resolution :
    edgesResolve initialEditorState = true ∧
    ∀ (s : EditorState) (op : GraphOp),
      edgesResolve s = true → opEndpointsResolve s op = true →
      edgesResolve (step s op) = true := by
  refine ⟨rfl, ?_⟩
  intro s op hres hpre
  have hres' : ∀ e ∈ s.edges, edgeEndpointsResolve s.nodes e = true := by
    simpa [edgesResolve, List.all_eq_true] using hres
  cases op with
  | createNodeOp t x y now =>
    show edgesResolve (createNode t (some x) (some y) 0 0 now s) = true
    obtain ⟨node, hnodes⟩ := createNode_nodes t (some x) (some y) 0 0 now s
    rw [edgesResolve, hnodes, createNode_edges, List.all_eq_true]
    intro e he
    rw [edgeEndpointsResolve_updatePortPositions]
    exact edgeEndpointsResolve_append _ _ _ (hres' e he)
  | createEdgeOp sn sp tn tp now =>
    show edgesResolve (createEdge sn sp tn tp now s) = true
    have hpre' : (endpointResolves s.nodes sn sp && endpointResolves s.nodes tn tp) = true :=
      hpre
    rw [Bool.and_eq_true] at hpre'
    cases hex : edgeExists s.edges sn sp tn tp with
    | true =>
      simpa [edgesResolve, createEdge, hex, List.all_eq_true] using hres
    | false =>
      rw [edgesResolve]
      have hedges : (createEdge sn sp tn tp now s).edges =
          s.edges ++ [{ id := "edge-" ++ toString now, sourceNodeId := sn,
                        sourcePortId := sp, targetNodeId := tn, targetPortId := tp }] := by
        simp [createEdge, hex]
      have hnodes : (createEdge sn sp tn tp now s).nodes = s.nodes := by
        simp [createEdge, hex]
      rw [hedges, hnodes, List.all_append, Bool.and_eq_true]
      constructor
      · rw [List.all_eq_true]; exact hres'
      · rw [List.all_eq_true]
        intro e he
        rw [List.mem_singleton] at he
        subst he
        rw [edgeEndpointsResolve, Bool.and_eq_true]
        exact ⟨hpre'.1, hpre'.2⟩
  | deleteNodeOp n =>
    show edgesResolve (deleteNode n s) = true
    rw [edgesResolve, List.all_eq_true]
    intro e he
    have he' : e ∈ s.edges.filter
        (fun edge => edge.sourceNodeId != n.id && edge.targetNodeId != n.id) := he
    simp only [List.mem_filter, Bool.and_eq_true, bne_iff_ne, ne_eq] at he'
    obtain ⟨hmem2, hs2, ht2⟩ := he'
    have h1 := hres' e hmem2
    rw [edgeEndpointsResolve, Bool.and_eq_true] at h1
    show edgeEndpointsResolve (s.nodes.filter fun m => m.id != n.id) e = true
    rw [edgeEndpointsResolve, Bool.and_eq_true]
    exact ⟨endpointResolves_filter_ne _ _ _ _ hs2 h1.1,
           endpointResolves_filter_ne _ _ _ _ ht2 h1.2⟩
  | deleteEdgeOp ed =>
    show edgesResolve (deleteEdge ed s) = true
    rw [edgesResolve, List.all_eq_true]
    intro e he
    have he' : e ∈ s.edges.filter (fun e => e.id != ed.id) := he
    exact hres' e (List.mem_filter.1 he').1

/-- Witness for C1 at a concrete resolving `createEdge` operation. -/
theorem graphOps_preserve_edge_resolution_witness :
    edgesResolve wState = true ∧
    opEndpointsResolve wState (GraphOp.createEdgeOp "n1" "output-1" "n2" "input-1" 7) = true ∧
    edgesResolve (step wState (GraphOp.createEdgeOp "n1" "output-1" "n2" "input-1" 7)) = true :=
  ⟨rfl, rfl,
   graphOps_preserve_edge_resolution.2 wState
     (GraphOp.createEdgeOp "n1" "output-1" "n2" "input-1" 7) rfl rfl⟩

/-- C9 / code bug: `createNode` mints node ids from `Date.now()` alone,
so two creations in the same millisecond (as in the component's own
`addExampleNodes`, which creates four nodes synchronously) produce
duplicate node ids, violating the spec's uniqueness of `Node.id`. -/
theorem createNode_id_collision :
    ¬ ((run initialEditorState
          [GraphOp.createNodeOp .dataset 0 0 5,
           GraphOp.createNodeOp .model 10 10 5]).nodes.map
        (fun n => n.id)).Nodup := by
  decide

end NodeEditor
